import Mathlib

/-!
Shallow embedding of the `USBCameraModule` React Native bridge
(`android/.../USBCameraModule.java`) for the gemdetect USB-camera repository.

The module keeps five mutable fields (`cameraDevice`, `captureSession`,
`imageReader`, `backgroundThread`, `backgroundHandler`); each `@ReactMethod`
and each hardware callback is modelled as a pure function from the field
state (plus the platform inputs that decide which branch the Java code
takes) to the next state, the list of events emitted through
`sendEvent`, and the promise outcome.  A checked platform exception
(`CameraAccessException`) is modelled by a Boolean input (`accessOk`);
an unchecked exception escaping a method uncaught is the distinguished
outcome `CallResult.fault`.
-/

namespace USBCamera

/-- A width/height pair, as produced by `StreamConfigurationMap.getOutputSizes`
and consumed by `ImageReader.newInstance`. -/
structure Resolution where
  width : Nat
  height : Nat
deriving DecidableEq, Repr

/-- `CameraCharacteristics.LENS_FACING_FRONT`. -/
def LENS_FACING_FRONT : Nat := 0

/-- `CameraCharacteristics.LENS_FACING_BACK`. -/
def LENS_FACING_BACK : Nat := 1

/-- `CameraCharacteristics.LENS_FACING_EXTERNAL`. -/
def LENS_FACING_EXTERNAL : Nat := 2

/-- One camera as reported by the platform `CameraManager`:
its id, whether `getCameraCharacteristics` succeeds for it
(`charsOk = false` models a thrown `CameraAccessException`),
its optional `LENS_FACING` value (`none` models a null property),
and the optional JPEG output size list (`none` models a null
stream-configuration map or a null size array). -/
structure PlatformCamera where
  id : String
  charsOk : Bool
  facing : Option Nat
  sizes : Option (List Resolution)
deriving DecidableEq, Repr

/-- The platform camera service: whether `getCameraIdList` succeeds
(`serviceOk = false` models a thrown `CameraAccessException`), and the
cameras it reports. -/
structure Platform where
  serviceOk : Bool
  cameras : List PlatformCamera
deriving DecidableEq, Repr

/-- One entry of the array resolved by `getAvailableCameras`. -/
structure CameraInfo where
  id : String
  type : String
  isUSBCamera : Bool
  resolutions : List Resolution
  name : String
  description : String
deriving DecidableEq, Repr

/-- The facing classification of `getAvailableCameras` (part_015 lines 74-99):
`LENS_FACING_FRONT` gives `"front"`, `LENS_FACING_BACK` gives `"back"`,
`LENS_FACING_EXTERNAL` gives `"external"` with the USB flag set, any other
non-null value leaves the initial `"unknown"`, and a null facing property
gives `"external"` with the USB flag set. -/
def classifyFacing (facing : Option Nat) : String × Bool :=
  match facing with
  | some f =>
      if f = LENS_FACING_FRONT then ("front", false)
      else if f = LENS_FACING_BACK then ("back", false)
      else if f = LENS_FACING_EXTERNAL then ("external", true)
      else ("unknown", false)
  | none => ("external", true)

/-- The `cameraInfo` map built for one camera (part_015 lines 71-131). -/
def mkCameraInfo (c : PlatformCamera) : CameraInfo :=
  let classified := classifyFacing c.facing
  let cameraType := classified.1
  let isUSB := classified.2
  { id := c.id
    type := cameraType
    isUSBCamera := isUSB
    resolutions := c.sizes.getD []
    name := if isUSB then "USB Digital Microscope"
            else "Phone Camera (" ++ cameraType ++ ")"
    description := if isUSB then "External USB Camera Device"
                   else "Built-in " ++ cameraType ++ " camera" }

/-- The per-camera loop of `getAvailableCameras` (part_015 lines 69-136):
a camera whose characteristics query throws (`charsOk = false`) is caught
by the inner try/catch and skipped; the others are appended in order. -/
def enumerateCameras : List PlatformCamera → List CameraInfo
  | [] => []
  | c :: rest =>
      if c.charsOk then mkCameraInfo c :: enumerateCameras rest
      else enumerateCameras rest

/-- Outcome of the `getAvailableCameras` promise. -/
inductive ListResult
  | resolved (cameras : List CameraInfo)
  | rejected (code : String)
deriving DecidableEq, Repr

/-- `getAvailableCameras` (part_015 lines 62-148): if `getCameraIdList`
throws, the promise is rejected with code `"CAMERA_ERROR"`; otherwise the
per-camera loop runs and the promise resolves with the surviving entries. -/
def getAvailableCameras (p : Platform) : ListResult :=
  if p.serviceOk then ListResult.resolved (enumerateCameras p.cameras)
  else ListResult.rejected "CAMERA_ERROR"

/-- The module's mutable fields (part_015 lines 45-49).  `cameraDevice`
carries the id of the held `CameraDevice` when non-null; `captureSession`
and `backgroundThread`/`backgroundHandler` record whether those references
are non-null; `imageReader` carries the size the reader was created with. -/
structure ModuleState where
  cameraDevice : Option String
  captureSession : Bool
  imageReader : Option Resolution
  backgroundThread : Bool
  backgroundHandler : Bool
deriving DecidableEq, Repr

/-- The state of a freshly constructed module: every field null. -/
def initialState : ModuleState :=
  { cameraDevice := none
    captureSession := false
    imageReader := none
    backgroundThread := false
    backgroundHandler := false }

/-- Events emitted through `sendEvent`: the `USBCameraEvent` statuses
`opened`, `disconnected`, `error`, `preview_started`, `closed`, and the
`USBCameraImageCaptured` event whose payload is the JPEG byte buffer of
the acquired frame (the base64 wrapping is a platform encoding of the
same bytes). -/
inductive Event
  | opened (cameraId : String)
  | disconnected (cameraId : String)
  | errored (cameraId : String) (errorCode : Nat)
  | previewStarted
  | imageCaptured (bytes : List Nat)
  | closed
deriving DecidableEq, Repr

/-- Outcome of a `@ReactMethod` promise, or of a hardware callback body:
resolved, rejected with a code, or an unchecked exception escaping
uncaught (`fault`). -/
inductive CallResult
  | resolved (message : String)
  | rejected (code : String)
  | fault (exceptionName : String)
deriving DecidableEq, Repr

/-- Synchronous outcome of `openCamera`: either the promise is rejected
before any hardware request, or the asynchronous hardware open has been
requested and the promise is left pending for the state callback. -/
inductive OpenOutcome
  | rejected (code : String)
  | requested
deriving DecidableEq, Repr

/-- Synchronous outcome of `startPreview`: either the promise is rejected,
or the capture-session configuration has been requested and the promise is
left pending for the session state callback. -/
inductive PreviewOutcome
  | rejected (code : String)
  | requested
deriving DecidableEq, Repr

/-- `startBackgroundThread` (part_015 lines 339-343): creates and starts
the handler thread and its handler. -/
def startBackgroundThread (st : ModuleState) : ModuleState :=
  { st with backgroundThread := true, backgroundHandler := true }

/-- `stopBackgroundThread` (part_015 lines 345-356): when the thread
reference is non-null, quits it, joins, and nulls both the thread and the
handler (the join is modelled as completing without interruption). -/
def stopBackgroundThread (st : ModuleState) : ModuleState :=
  if st.backgroundThread then
    { st with backgroundThread := false, backgroundHandler := false }
  else st

/-- `openCamera` (part_015 lines 150-208), synchronous part: rejects with
`"PERMISSION_DENIED"` when the camera permission is missing; otherwise
starts the background thread and calls `cameraManager.openCamera`, which
either issues the asynchronous open request or throws
`CameraAccessException` (`accessOk = false`), rejected as
`"CAMERA_ERROR"`.  No field of the module state is consulted. -/
def openCamera (st : ModuleState) (permissionGranted : Bool)
    (accessOk : Bool) : ModuleState × OpenOutcome :=
  if permissionGranted = false then (st, OpenOutcome.rejected "PERMISSION_DENIED")
  else
    let st1 := startBackgroundThread st
    if accessOk then (st1, OpenOutcome.requested)
    else (st1, OpenOutcome.rejected "CAMERA_ERROR")

/-- `CameraDevice.StateCallback.onOpened` (part_015 lines 164-176): stores
the delivered device, emits the `opened` event, resolves the promise. -/
def onOpened (st : ModuleState) (cameraId : String) :
    ModuleState × List Event × CallResult :=
  ({ st with cameraDevice := some cameraId },
   [Event.opened cameraId],
   CallResult.resolved "Camera opened successfully")

/-- `CameraDevice.StateCallback.onDisconnected` (part_015 lines 178-188):
closes the delivered device handle (the returned `Nat` counts those
`close()` calls), nulls `cameraDevice`, and emits the `disconnected`
event.  `captureSession`, `imageReader` and the background thread are not
touched. -/
def onDisconnected (st : ModuleState) (cameraId : String) :
    ModuleState × List Event × Nat :=
  ({ st with cameraDevice := none }, [Event.disconnected cameraId], 1)

/-- `CameraDevice.StateCallback.onError` (part_015 lines 190-201): closes
the delivered device handle, nulls `cameraDevice`, emits the `error`
event with its code. -/
def onError (st : ModuleState) (cameraId : String) (errorCode : Nat) :
    ModuleState × List Event × Nat :=
  ({ st with cameraDevice := none }, [Event.errored cameraId errorCode], 1)

/-- `startPreview` (part_015 lines 210-287), synchronous part: rejects
with `"NO_CAMERA"` when `cameraDevice` is null; otherwise creates the
`ImageReader` at exactly the requested width and height (no comparison
against any supported-resolution list appears anywhere in the method) and
calls `createCaptureSession`, which either issues the configuration
request or throws `CameraAccessException`, rejected as
`"CAMERA_ERROR"`. -/
def startPreview (st : ModuleState) (width height : Nat) (accessOk : Bool) :
    ModuleState × PreviewOutcome :=
  if st.cameraDevice = none then (st, PreviewOutcome.rejected "NO_CAMERA")
  else
    let st1 := { st with imageReader := some (Resolution.mk width height) }
    if accessOk then (st1, PreviewOutcome.requested)
    else (st1, PreviewOutcome.rejected "CAMERA_ERROR")

/-- `CameraCaptureSession.StateCallback.onConfigured` (part_015 lines
252-274): stores the session, then builds the repeating preview request.
`cameraDevice.createCaptureRequest` and `imageReader.getSurface()` are
dereferenced with no null check, so a null field at this point raises an
uncaught `NullPointerException`; a `CameraAccessException` is caught and
rejected as `"PREVIEW_ERROR"`; on success the `preview_started` event is
emitted and the promise resolves. -/
def onConfigured (st : ModuleState) (accessOk : Bool) :
    ModuleState × List Event × CallResult :=
  let st1 := { st with captureSession := true }
  if st1.cameraDevice = none then (st1, [], CallResult.fault "NullPointerException")
  else if st1.imageReader = none then (st1, [], CallResult.fault "NullPointerException")
  else if accessOk then
    (st1, [Event.previewStarted], CallResult.resolved "Preview started successfully")
  else (st1, [], CallResult.rejected "PREVIEW_ERROR")

/-- `CameraCaptureSession.StateCallback.onConfigureFailed` (part_015
lines 276-280): rejects the promise with `"SESSION_ERROR"`. -/
def onConfigureFailed (st : ModuleState) : ModuleState × List Event × CallResult :=
  (st, [], CallResult.rejected "SESSION_ERROR")

/-- `ImageReader.OnImageAvailableListener.onImageAvailable` (part_015
lines 222-245), one invocation: `acquireLatestImage` either returns an
image, whose bytes are encoded and emitted as one
`USBCameraImageCaptured` event before the image is closed, or returns
null and nothing is emitted.  The listener has no notion of which capture
request (repeating preview or still capture) produced the frame. -/
def onImageAvailable (acquiredImage : Option (List Nat)) : List Event :=
  match acquiredImage with
  | some bytes => [Event.imageCaptured bytes]
  | none => []

/-- The events emitted across a sequence of listener invocations, one per
frame delivered by the hardware to the reader's surface. -/
def deliverFrames (frames : List (Option (List Nat))) : List Event :=
  (frames.map onImageAvailable).flatten

/-- `captureImage` (part_015 lines 289-309): rejects with
`"NO_SESSION"` when `captureSession` is null.  Otherwise
`cameraDevice.createCaptureRequest` and `imageReader.getSurface()` are
dereferenced with no null check (an uncaught `NullPointerException` when
either is null — only `CameraAccessException` is caught); on success the
still capture is submitted and the promise resolves.  No event is emitted
on any synchronous path. -/
def captureImage (st : ModuleState) (accessOk : Bool) :
    ModuleState × List Event × CallResult :=
  if st.captureSession = false then (st, [], CallResult.rejected "NO_SESSION")
  else if st.cameraDevice = none then (st, [], CallResult.fault "NullPointerException")
  else if st.imageReader = none then (st, [], CallResult.fault "NullPointerException")
  else if accessOk then (st, [], CallResult.resolved "Image capture initiated")
  else (st, [], CallResult.rejected "CAPTURE_ERROR")

/-- Which resources one `closeCamera` call actually released. -/
structure ReleaseEffects where
  sessionClosed : Bool
  deviceClosed : Bool
  readerClosed : Bool
  threadStopped : Bool
deriving DecidableEq, Repr

/-- `closeCamera` (part_015 lines 311-337): closes and nulls
`captureSession`, `cameraDevice` and `imageReader` whenever each is
non-null, stops the background thread, then unconditionally emits the
`closed` event and resolves the promise. -/
def closeCamera (st : ModuleState) :
    ModuleState × List Event × CallResult × ReleaseEffects :=
  let sessionClosed := st.captureSession
  let st1 := { st with captureSession := false }
  let deviceClosed := st1.cameraDevice.isSome
  let st2 := { st1 with cameraDevice := none }
  let readerClosed := st2.imageReader.isSome
  let st3 := { st2 with imageReader := none }
  let threadStopped := st3.backgroundThread
  let st4 := stopBackgroundThread st3
  (st4, [Event.closed], CallResult.resolved "Camera closed successfully",
   { sessionClosed := sessionClosed
     deviceClosed := deviceClosed
     readerClosed := readerClosed
     threadStopped := threadStopped })

/-- True exactly for `closed` events. -/
def isClosedEvent : Event → Bool
  | Event.closed => true
  | _ => false

/-- True exactly for `imageCaptured` events. -/
def isImageCaptured : Event → Bool
  | Event.imageCaptured _ => true
  | _ => false

/-- Number of `closed` events in a list. -/
def countClosed (evs : List Event) : Nat := (evs.filter isClosedEvent).length

/-- Number of `imageCaptured` events in a list. -/
def countImageCaptured (evs : List Event) : Nat :=
  (evs.filter isImageCaptured).length

/-- `getAvailableCameras` with the module state threaded through: the
method body (part_015 lines 62-148) reads only `cameraManager` and local
variables and assigns none of the module's session fields. -/
def getAvailableCamerasM (st : ModuleState) (p : Platform) :
    ModuleState × ListResult :=
  (st, getAvailableCameras p)

/-- Projection of the resolved camera list (empty on rejection). -/
def camerasOf : ListResult → List CameraInfo
  | ListResult.resolved cams => cams
  | ListResult.rejected _ => []

/-- Whether the `getAvailableCameras` promise was rejected. -/
def isRejected : ListResult → Bool
  | ListResult.resolved _ => false
  | ListResult.rejected _ => true

/- Concrete states reached by running the happy path of the module, used
by the scenario theorems below. -/

/-- State after the synchronous part of a successful `openCamera` call. -/
def stateAfterOpenCall : ModuleState := (openCamera initialState true true).1

/-- State after the hardware delivers `onOpened` for camera `"cam-1"`:
a session is live. -/
def liveSessionState : ModuleState := (onOpened stateAfterOpenCall "cam-1").1

/-- State after the synchronous part of `startPreview 1920 1080`. -/
def previewRequestedState : ModuleState :=
  (startPreview liveSessionState 1920 1080 true).1

/-- State after `onConfigured` succeeds: the module is previewing. -/
def previewingState : ModuleState := (onConfigured previewRequestedState true).1

/-- State after the hardware reports a disconnect mid-preview. -/
def disconnectedState : ModuleState := (onDisconnected previewingState "cam-1").1

/-- A platform camera reporting `LENS_FACING_BACK`. -/
def scenarioBackCamera : PlatformCamera :=
  { id := "0"
    charsOk := true
    facing := some LENS_FACING_BACK
    sizes := some [Resolution.mk 1920 1080] }

/-- A platform camera reporting no facing property at all. -/
def scenarioUSBCamera : PlatformCamera :=
  { id := "2"
    charsOk := true
    facing := none
    sizes := some [Resolution.mk 1920 1080] }

/-- A platform camera whose characteristics query throws. -/
def faultyCamera : PlatformCamera :=
  { id := "1"
    charsOk := false
    facing := some LENS_FACING_BACK
    sizes := some [] }

/-- The platform of spec Scenario A: one back camera, one camera with no
facing property. -/
def scenarioAPlatform : Platform :=
  { serviceOk := true, cameras := [scenarioBackCamera, scenarioUSBCamera] }

/-- Two distinct JPEG frames. -/
def frameA : List Nat := [255, 216, 0]

/-- A second distinct JPEG frame. -/
def frameB : List Nat := [255, 216, 1]

/-- A platform camera supporting only 640x480, for the resolution
validation scenario. -/
def smallCamera : PlatformCamera :=
  { id := "cam-1"
    charsOk := true
    facing := some LENS_FACING_BACK
    sizes := some [Resolution.mk 640 480] }

/-- Helper for claim C8: a camera whose characteristics query succeeds and
which is in the reported list contributes its entry to the enumeration. -/
theorem mem_enumerateCameras (c : PlatformCamera) (hok : c.charsOk = true) :
    ∀ cams : List PlatformCamera, c ∈ cams →
      mkCameraInfo c ∈ enumerateCameras cams := by
  intro cams
  induction cams with
  | nil => intro h; cases h
  | cons d rest ih =>
      intro h
      rcases List.mem_cons.mp h with h | h
      · subst h
        simp [enumerateCameras, hok]
      · simp only [enumerateCameras]
        split
        · exact List.mem_cons_of_mem _ (ih h)
        · exact ih h

/-- Claim C1 (counterexample): with a session already live (`cam-1` held),
a second `openCamera` call with permission granted is not rejected at all —
in particular not with any AlreadyOpen error — but issues a fresh hardware
open request, and the subsequent `onOpened` silently replaces the live
session's device with the new one. -/
theorem c1_open_while_live_counterexample :
    liveSessionState.cameraDevice = some "cam-1" ∧
    (openCamera liveSessionState true true).2 = OpenOutcome.requested ∧
    (onOpened (openCamera liveSessionState true true).1 "cam-2").1.cameraDevice
      = some "cam-2" := by
  decide

/-- Claim C1 (amended): `openCamera` performs no already-open check: its
outcome is the same from every module state; with permission granted it
always issues the hardware open request (or rejects `CAMERA_ERROR` when
the platform call throws), and the eventual `onOpened` overwrites whatever
device reference was held. -/
theorem c1_open_ignores_session_amended :
    ∀ (st : ModuleState) (perm accessOk : Bool),
      (openCamera st perm accessOk).2 = (openCamera initialState perm accessOk).2 ∧
      (perm = true →
        (openCamera st perm accessOk).2 =
          (if accessOk then OpenOutcome.requested
           else OpenOutcome.rejected "CAMERA_ERROR")) ∧
      (∀ newId : String,
        (onOpened (openCamera st perm accessOk).1 newId).1.cameraDevice
          = some newId) := by
  intro st perm accessOk
  cases perm <;> cases accessOk <;>
    simp [openCamera, onOpened, startBackgroundThread, initialState]

/-- Claim C1 (witness): instantiating the amended theorem at the live
session state with permission granted and a non-throwing platform. -/
theorem c1_open_ignores_session_witness :
    (openCamera liveSessionState true true).2 = OpenOutcome.requested := by
  have h := (c1_open_ignores_session_amended liveSessionState true true).2.1 rfl
  simpa using h

/-- Claim C2: `captureImage` from a state without a capture session is
rejected with `NO_SESSION` and emits nothing; but in the state reached by
open, onOpened, startPreview, onConfigured, onDisconnected — where
`captureSession` is still set while `cameraDevice` has been nulled by the
disconnect callback — `captureImage` escapes as an uncaught
`NullPointerException` instead of rejecting. -/
theorem c2_capture_null_device_fault :
    (captureImage initialState true).2.2 = CallResult.rejected "NO_SESSION" ∧
    (captureImage initialState true).2.1 = ([] : List Event) ∧
    disconnectedState.captureSession = true ∧
    disconnectedState.cameraDevice = none ∧
    (captureImage disconnectedState true).2.2 = CallResult.fault "NullPointerException" ∧
    (captureImage disconnectedState true).2.1 = ([] : List Event) := by
  decide

/-- Claim C3 (counterexample): two preview frames delivered by the
repeating request, with no `captureImage` call at all, already produce two
`imageCaptured` events — events are not keyed to capture requests. -/
theorem c3_preview_frames_counterexample :
    deliverFrames [some frameA, some frameB]
      = [Event.imageCaptured frameA, Event.imageCaptured frameB] ∧
    countImageCaptured (deliverFrames [some frameA, some frameB]) = 2 := by
  decide

/-- Claim C3 (amended): the image-available listener emits exactly one
`imageCaptured` event per acquired frame, regardless of any capture
request — across any sequence of frame deliveries the event count equals
the number of frames acquired, not the number of `captureImage` calls. -/
theorem c3_event_per_frame_amended :
    ∀ frames : List (Option (List Nat)),
      countImageCaptured (deliverFrames frames)
        = (frames.filter Option.isSome).length := by
  intro frames
  induction frames with
  | nil => rfl
  | cons f rest ih =>
      cases f with
      | none =>
          simpa [deliverFrames, onImageAvailable, countImageCaptured] using ih
      | some b =>
          simp [deliverFrames, onImageAvailable, countImageCaptured,
            isImageCaptured, List.filter_append] at ih ⊢
          omega

/-- Claim C4 (counterexample): from the (reachable) initial state, two
successive `closeCamera` calls emit two `closed` events in total, not
one — the second call is not silent. -/
theorem c4_double_close_counterexample :
    countClosed ((closeCamera initialState).2.1
      ++ (closeCamera (closeCamera initialState).1).2.1) = 2 := by
  decide

/-- Claim C4 (amended): every `closeCamera` call — including the second of
two in a row — emits one `closed` event and resolves; release is
idempotent: after the first call the second finds nothing to release
(all release effects false) and leaves every resource field cleared. -/
theorem c4_close_amended :
    ∀ st : ModuleState,
      (closeCamera st).2.1 = [Event.closed] ∧
      (closeCamera st).2.2.1 = CallResult.resolved "Camera closed successfully" ∧
      (closeCamera (closeCamera st).1).2.1 = [Event.closed] ∧
      (closeCamera (closeCamera st).1).2.2.2 = ReleaseEffects.mk false false false false ∧
      (closeCamera (closeCamera st).1).1.cameraDevice = none ∧
      (closeCamera (closeCamera st).1).1.captureSession = false ∧
      (closeCamera (closeCamera st).1).1.imageReader = none ∧
      (closeCamera (closeCamera st).1).1.backgroundThread = false := by
  intro st
  rcases st with ⟨d, s, r, t, h⟩
  cases t <;> simp [closeCamera, stopBackgroundThread]

/-- Claim C5 (counterexample): a disconnect mid-preview emits exactly one
`disconnected` event and closes the hardware handle once, but the capture
session, image reader and background thread all survive it, and a frame
still queued on the reader afterwards still emits an `imageCaptured`
event — the full teardown the claim requires does not happen. -/
theorem c5_disconnect_counterexample :
    (onDisconnected previewingState "cam-1").2.1 = [Event.disconnected "cam-1"] ∧
    (onDisconnected previewingState "cam-1").2.2 = 1 ∧
    disconnectedState.captureSession = true ∧
    disconnectedState.imageReader = some (Resolution.mk 1920 1080) ∧
    disconnectedState.backgroundThread = true ∧
    deliverFrames [some frameA] = [Event.imageCaptured frameA] := by
  decide

/-- Claim C5 (amended): `onDisconnected` emits exactly one `disconnected`
event, closes the delivered hardware handle exactly once, and nulls only
`cameraDevice`; the capture session, image reader and background thread
are left exactly as they were, and the still-registered listener keeps
emitting one `imageCaptured` event per acquired frame. -/
theorem c5_disconnect_amended :
    ∀ (st : ModuleState) (cameraId : String),
      (onDisconnected st cameraId).2.1 = [Event.disconnected cameraId] ∧
      (onDisconnected st cameraId).2.2 = 1 ∧
      (onDisconnected st cameraId).1.cameraDevice = none ∧
      (onDisconnected st cameraId).1.captureSession = st.captureSession ∧
      (onDisconnected st cameraId).1.imageReader = st.imageReader ∧
      (onDisconnected st cameraId).1.backgroundThread = st.backgroundThread ∧
      (∀ bytes : List Nat,
        onImageAvailable (some bytes) = [Event.imageCaptured bytes]) := by
  intro st cameraId
  simp [onDisconnected, onImageAvailable]

/-- Claim C6 (counterexample): with `cam-1` open and its descriptor
supporting only 640x480, `startPreview 1920 1080` is not rejected with any
UnsupportedResolution error: the unsupported size is handed straight to
the image reader and the session configuration is requested. -/
theorem c6_resolution_counterexample :
    (mkCameraInfo smallCamera).resolutions = [Resolution.mk 640 480] ∧
    decide (Resolution.mk 1920 1080 ∈ (mkCameraInfo smallCamera).resolutions) = false ∧
    liveSessionState.cameraDevice = some "cam-1" ∧
    (startPreview liveSessionState 1920 1080 true).2 = PreviewOutcome.requested ∧
    (startPreview liveSessionState 1920 1080 true).1.imageReader
      = some (Resolution.mk 1920 1080) := by
  decide

/-- Claim C6 (amended): `startPreview` rejects with `NO_CAMERA` exactly
when no device is open; with a device open it performs no resolution
validation at all — every requested width and height is used to create
the image reader and the configuration is requested (or rejected
`CAMERA_ERROR` when the platform call throws), never with an
UnsupportedResolution error. -/
theorem c6_no_validation_amended :
    ∀ (st : ModuleState) (w h : Nat) (accessOk : Bool),
      (st.cameraDevice = none →
        (startPreview st w h accessOk).2 = PreviewOutcome.rejected "NO_CAMERA") ∧
      (∀ id0 : String, st.cameraDevice = some id0 →
        (startPreview st w h accessOk).1.imageReader = some (Resolution.mk w h) ∧
        (startPreview st w h accessOk).2 =
          (if accessOk then PreviewOutcome.requested
           else PreviewOutcome.rejected "CAMERA_ERROR")) := by
  intro st w h accessOk
  constructor
  · intro hd
    simp [startPreview, hd]
  · intro id0 hd
    cases accessOk <;> simp [startPreview, hd]

/-- Claim C6 (witness): instantiating the amended theorem at the empty
state (no device open) and at the live session state with an arbitrary
large resolution. -/
theorem c6_no_validation_witness :
    (startPreview initialState 1920 1080 true).2 = PreviewOutcome.rejected "NO_CAMERA" ∧
    (startPreview liveSessionState 1920 1080 true).1.imageReader
      = some (Resolution.mk 1920 1080) :=
  ⟨(c6_no_validation_amended initialState 1920 1080 true).1 rfl,
   ((c6_no_validation_amended liveSessionState 1920 1080 true).2 "cam-1" rfl).1⟩

/-- Claim C7: a camera is classified external (type `"external"`, USB flag
set) exactly when its facing property is absent or equals
`LENS_FACING_EXTERNAL`; and on the Scenario A platform (one
`LENS_FACING_BACK` camera, one camera with no facing property) the listing
resolves with one back entry and one external entry. -/
theorem c7_external_classification :
    (∀ facing : Option Nat,
      (classifyFacing facing).2 = true ↔
        (facing = none ∨ facing = some LENS_FACING_EXTERNAL)) ∧
    (∀ facing : Option Nat,
      (classifyFacing facing).1 = "external" ↔
        (facing = none ∨ facing = some LENS_FACING_EXTERNAL)) ∧
    getAvailableCameras scenarioAPlatform = ListResult.resolved
      [{ id := "0"
         type := "back"
         isUSBCamera := false
         resolutions := [Resolution.mk 1920 1080]
         name := "Phone Camera (back)"
         description := "Built-in back camera" },
       { id := "2"
         type := "external"
         isUSBCamera := true
         resolutions := [Resolution.mk 1920 1080]
         name := "USB Digital Microscope"
         description := "External USB Camera Device" }] := by
  refine ⟨?_, ?_, by decide⟩ <;>
  · intro facing
    rcases facing with _ | f
    · simp [classifyFacing]
    · simp only [classifyFacing, LENS_FACING_FRONT, LENS_FACING_BACK,
        LENS_FACING_EXTERNAL]
      by_cases h0 : f = 0
      · subst h0; decide
      · by_cases h1 : f = 1
        · subst h1; decide
        · by_cases h2 : f = 2
          · subst h2; decide
          · simp [h0, h1, h2]

/-- Claim C8: listing cameras leaves every module field untouched; every
successfully queried camera of an available service contributes a
descriptor carrying its supported resolution set; and the promise is
rejected exactly when the platform camera service is unavailable. -/
theorem c8_listDevices_properties :
    (∀ (st : ModuleState) (p : Platform), (getAvailableCamerasM st p).1 = st) ∧
    (∀ (p : Platform) (c : PlatformCamera),
      p.serviceOk = true → c ∈ p.cameras → c.charsOk = true →
        mkCameraInfo c ∈ camerasOf (getAvailableCameras p) ∧
        (mkCameraInfo c).resolutions = c.sizes.getD []) ∧
    (∀ p : Platform,
      isRejected (getAvailableCameras p) = true ↔ p.serviceOk = false) := by
  refine ⟨fun st p => rfl, ?_, ?_⟩
  · intro p c hs hmem hok
    refine ⟨?_, rfl⟩
    simpa [getAvailableCameras, hs, camerasOf] using
      mem_enumerateCameras c hok p.cameras hmem
  · intro p
    cases hp : p.serviceOk <;> simp [getAvailableCameras, hp, isRejected]

/-- Claim C8 (witness): instantiating the field-preservation and
descriptor parts at the Scenario A platform and its back camera. -/
theorem c8_listDevices_properties_witness :
    mkCameraInfo scenarioBackCamera ∈ camerasOf (getAvailableCameras scenarioAPlatform) ∧
    (mkCameraInfo scenarioBackCamera).resolutions = scenarioBackCamera.sizes.getD [] :=
  c8_listDevices_properties.2.1 scenarioAPlatform scenarioBackCamera rfl (by decide) rfl

/-- Claim C9: for every prior module state, `closeCamera` resolves its
promise (never rejects) and leaves the camera device, capture session and
image reader fields null with the background thread stopped. -/
theorem c9_close_postcondition :
    ∀ st : ModuleState,
      (closeCamera st).2.2.1 = CallResult.resolved "Camera closed successfully" ∧
      (closeCamera st).1.cameraDevice = none ∧
      (closeCamera st).1.captureSession = false ∧
      (closeCamera st).1.imageReader = none ∧
      (closeCamera st).1.backgroundThread = false := by
  intro st
  rcases st with ⟨d, s, r, t, h⟩
  cases t <;> simp [closeCamera, stopBackgroundThread]

/-- Claim C10: a camera whose characteristics query throws is simply
dropped from the enumeration, wherever it sits in the list — the remaining
cameras are still returned and the call still resolves; only a failure of
the top-level camera-id listing rejects it. -/
theorem c10_faulty_camera_skipped :
    (∀ (pre post : List PlatformCamera) (c : PlatformCamera),
      c.charsOk = false →
        enumerateCameras (pre ++ c :: post) = enumerateCameras (pre ++ post)) ∧
    (∀ p : Platform, p.serviceOk = true →
      isRejected (getAvailableCameras p) = false) ∧
    (∀ p : Platform, isRejected (getAvailableCameras p) = true →
      p.serviceOk = false) := by
  refine ⟨?_, ?_, ?_⟩
  · intro pre post c hc
    induction pre with
    | nil => simp [enumerateCameras, hc]
    | cons d rest ih =>
        simp only [List.cons_append, enumerateCameras, List.append_eq, ih]
  · intro p hp
    simp [getAvailableCameras, hp, isRejected]
  · intro p hrej
    cases hp : p.serviceOk
    · rfl
    · simp [getAvailableCameras, hp, isRejected] at hrej

/-- Claim C10 (witness): a faulty camera between the two Scenario A
cameras is skipped, and the Scenario A listing resolves. -/
theorem c10_faulty_camera_skipped_witness :
    enumerateCameras ([scenarioBackCamera] ++ faultyCamera :: [scenarioUSBCamera])
      = enumerateCameras ([scenarioBackCamera] ++ [scenarioUSBCamera]) ∧
    isRejected (getAvailableCameras scenarioAPlatform) = false :=
  ⟨c10_faulty_camera_skipped.1 [scenarioBackCamera] [scenarioUSBCamera] faultyCamera rfl,
   c10_faulty_camera_skipped.2.1 scenarioAPlatform rfl⟩

end USBCamera
